import Mathlib

/-!
# Solar Symmetry — verification of the date-symmetry / twilight-batch core

Shallow embedding of the repository's core pipeline:

* `DateCalculations` (solstice mirroring, month assembly, month navigation),
* `TwilightClient.getBatchTwilightTimes` (dedup + batch fetch with fallback),
* the symmetry-view loader's chunked progressive rendering.

A JS `Date` is modelled as the whole number of days since 1970-01-01.  Every
`Date` the core constructs is anchored at local midnight, so a difference of
two such dates is an exact whole number of days and
`Math.floor((a - b) / 86400000)` is exactly the day difference; comparisons of
`Math.abs(a - b)` in milliseconds order the same way as day distances.  The
field extraction / normalization behaviour of the JS `Date` primitive
(`getFullYear`, `getMonth`, `getDate`, constructor rollover of out-of-range
month and day fields) is embedded with standard proleptic-Gregorian civil-date
conversions; `Int` division `/` in Lean is Euclidean division, which for the
positive constant divisors used here coincides with the floor division JS
`Date` normalization performs.
-/

namespace SolarSymmetry

/-- Gregorian leap-year rule (the calendar implemented by the JS `Date`
primitive the source delegates to). -/
def isLeapYear (y : Int) : Prop := (y % 4 = 0 ∧ y % 100 ≠ 0) ∨ y % 400 = 0

instance (y : Int) : Decidable (isLeapYear y) := by
  unfold isLeapYear; infer_instance

/-- Number of days of month `m` (1–12) of year `y` (the JS `Date` calendar). -/
def daysInMonth (y : Int) (m : Int) : Int :=
  if m = 2 then (if isLeapYear y then 29 else 28)
  else if m = 4 ∨ m = 6 ∨ m = 9 ∨ m = 11 then 30 else 31

/-- Days since 1970-01-01 of the civil date (`y`, `m`, `d`) with `m` in 1..12;
`d` may be any integer and the result is linear in `d`, matching the JS `Date`
constructor's rollover of the day field. -/
def daysFromCivil (y m d : Int) : Int :=
  let y2 := if m ≤ 2 then y - 1 else y
  let era := y2 / 400
  let yoe := y2 - era * 400
  let mp := if m ≤ 2 then m + 9 else m - 3
  let doy := (153 * mp + 2) / 5 + d - 1
  let doe := yoe * 365 + yoe / 4 - yoe / 100 + doy
  era * 146097 + doe - 719468

/-- Civil date (year, month 1..12, day 1..31) of a day count since 1970-01-01. -/
def civilFromDays (n : Int) : Int × Int × Int :=
  let z := n + 719468
  let era := z / 146097
  let doe := z - era * 146097
  let yoe := (doe - doe / 1460 + doe / 36524 - doe / 146096) / 365
  let y := yoe + era * 400
  let doy := doe - (365 * yoe + yoe / 4 - yoe / 100)
  let mp := (5 * doy + 2) / 153
  let d := doy - (153 * mp + 2) / 5 + 1
  let m := if mp < 10 then mp + 3 else mp - 9
  (if m ≤ 2 then y + 1 else y, m, d)

/-- JS `new Date(year, monthIndex, day)` at local midnight: out-of-range
`monthIndex` (0-based) and `day` roll over into adjacent months and years. -/
def mkDate (y mIdx d : Int) : Int :=
  daysFromCivil (y + mIdx / 12) (mIdx % 12 + 1) d

/-- JS `date.getFullYear()`. -/
def getFullYear (n : Int) : Int := (civilFromDays n).1

/-- JS `date.getMonth()` (0-based month index). -/
def getMonth (n : Int) : Int := (civilFromDays n).2.1 - 1

/-- JS `date.getDate()` (day of month, 1-based). -/
def getDate (n : Int) : Int := (civilFromDays n).2.2

/-- JS `date.setDate(x)`: replace the day-of-month field by `x`, rolling over
out-of-range values. -/
def setDate (n x : Int) : Int := mkDate (getFullYear n) (getMonth n) x

/-- JS `date.setMonth(m)`: replace the month field by `m` keeping the
day-of-month field, rolling over out-of-range values. -/
def setMonth (n m : Int) : Int := mkDate (getFullYear n) m (getDate n)

/-- JS `Math.abs` on an integer quantity. -/
def jsAbs (x : Int) : Int := if x < 0 then -x else x

/-! ## Correctness of the civil-date conversions -/

theorem daysFromCivil_day_linear (y m d k : Int) :
    daysFromCivil y m (d + k) = daysFromCivil y m d + k := by
  simp only [daysFromCivil]
  omega

/-- Recovery of the year-of-era from the day-of-era (core arithmetic fact
behind `civilFromDays`). -/
theorem yearOfEra_recover (yoe doy : Int) (h1 : 0 ≤ yoe) (h2 : yoe ≤ 399)
    (h3 : 0 ≤ doy) (h4 : doy ≤ 365)
    (h5 : doy = 365 → ((yoe + 1) % 4 = 0 ∧ (yoe + 1) % 100 ≠ 0) ∨ (yoe + 1) % 400 = 0) :
    (365 * yoe + yoe / 4 - yoe / 100 + doy - (365 * yoe + yoe / 4 - yoe / 100 + doy) / 1460 +
        (365 * yoe + yoe / 4 - yoe / 100 + doy) / 36524 -
        (365 * yoe + yoe / 4 - yoe / 100 + doy) / 146096) / 365 = yoe := by
  have hf : (365 * yoe + yoe / 4 - yoe / 100 + doy) / 1460 = yoe / 4 ∨
      (365 * yoe + yoe / 4 - yoe / 100 + doy) / 1460 = yoe / 4 + 1 := by omega
  have hg : (365 * yoe + yoe / 4 - yoe / 100 + doy) / 36524 = yoe / 100 ∨
      (365 * yoe + yoe / 4 - yoe / 100 + doy) / 36524 = yoe / 100 + 1 := by omega
  rcases hf with hf | hf <;> rcases hg with hg | hg <;> omega

/-- `civilFromDays` on a day count presented in era/day-of-era form. -/
theorem civilFromDays_era (era doe : Int) (h0 : 0 ≤ doe) (h1 : doe ≤ 146096) :
    civilFromDays (era * 146097 + doe - 719468) =
      (let yoe := (doe - doe / 1460 + doe / 36524 - doe / 146096) / 365
       let y := yoe + era * 400
       let doy := doe - (365 * yoe + yoe / 4 - yoe / 100)
       let mp := (5 * doy + 2) / 153
       let d := doy - (153 * mp + 2) / 5 + 1
       let m := if mp < 10 then mp + 3 else mp - 9
       (if m ≤ 2 then y + 1 else y, m, d)) := by
  have hz : era * 146097 + doe - 719468 + 719468 = era * 146097 + doe := by ring
  have he : (era * 146097 + doe) / 146097 = era := by omega
  have hd : era * 146097 + doe - era * 146097 = doe := by ring
  simp only [civilFromDays, hz, he, hd]

/-- `civilFromDays` applied to an era/year-of-era/day-of-year decomposition. -/
theorem civilFromDays_yoe (era yoe doy : Int) (hy0 : 0 ≤ yoe) (hy1 : yoe ≤ 399)
    (hd0 : 0 ≤ doy) (hd1 : doy ≤ 365)
    (h5 : doy = 365 → ((yoe + 1) % 4 = 0 ∧ (yoe + 1) % 100 ≠ 0) ∨ (yoe + 1) % 400 = 0) :
    civilFromDays (era * 146097 + (yoe * 365 + yoe / 4 - yoe / 100 + doy) - 719468) =
      (let mp := (5 * doy + 2) / 153
       let d := doy - (153 * mp + 2) / 5 + 1
       let m := if mp < 10 then mp + 3 else mp - 9
       (if m ≤ 2 then era * 400 + yoe + 1 else era * 400 + yoe, m, d)) := by
  have hdoe0 : 0 ≤ yoe * 365 + yoe / 4 - yoe / 100 + doy := by omega
  have hdoe1 : yoe * 365 + yoe / 4 - yoe / 100 + doy ≤ 146096 := by omega
  rw [civilFromDays_era era _ hdoe0 hdoe1]
  have hrec : (yoe * 365 + yoe / 4 - yoe / 100 + doy -
      (yoe * 365 + yoe / 4 - yoe / 100 + doy) / 1460 +
      (yoe * 365 + yoe / 4 - yoe / 100 + doy) / 36524 -
      (yoe * 365 + yoe / 4 - yoe / 100 + doy) / 146096) / 365 = yoe := by
    have h := yearOfEra_recover yoe doy hy0 hy1 hd0 hd1 h5
    omega
  simp only [hrec]
  have hdoy : yoe * 365 + yoe / 4 - yoe / 100 + doy - (365 * yoe + yoe / 4 - yoe / 100) = doy := by
    ring
  simp only [hdoy]
  have hy : yoe + era * 400 = era * 400 + yoe := by ring
  simp only [hy]

/-- `civilFromDays` of a day count written in the shape produced by
`daysFromCivil` for the (possibly shifted) year `y2`. -/
theorem civilFromDays_shape (y2 doy : Int) (h0 : 0 ≤ doy) (h1 : doy ≤ 365)
    (h5 : doy = 365 → ((y2 + 1) % 4 = 0 ∧ (y2 + 1) % 100 ≠ 0) ∨ (y2 + 1) % 400 = 0) :
    civilFromDays (y2 / 400 * 146097 +
        ((y2 - y2 / 400 * 400) * 365 + (y2 - y2 / 400 * 400) / 4 -
          (y2 - y2 / 400 * 400) / 100 + doy) - 719468) =
      (let mp := (5 * doy + 2) / 153
       let dd := doy - (153 * mp + 2) / 5 + 1
       let mm := if mp < 10 then mp + 3 else mp - 9
       (if mm ≤ 2 then y2 + 1 else y2, mm, dd)) := by
  have hy0 : 0 ≤ y2 - y2 / 400 * 400 := by omega
  have hy1 : y2 - y2 / 400 * 400 ≤ 399 := by omega
  have h5' : doy = 365 →
      ((y2 - y2 / 400 * 400 + 1) % 4 = 0 ∧ (y2 - y2 / 400 * 400 + 1) % 100 ≠ 0) ∨
        (y2 - y2 / 400 * 400 + 1) % 400 = 0 := by omega
  rw [civilFromDays_yoe (y2 / 400) (y2 - y2 / 400 * 400) doy hy0 hy1 h0 h1 h5']
  have he : y2 / 400 * 400 + (y2 - y2 / 400 * 400) = y2 := by ring
  simp only [he]

/-- Round-trip: converting a valid civil date to a day count and back recovers
the civil fields.  This is the key property of the embedded `Date` primitive:
`getFullYear`/`getMonth`/`getDate` of a `Date` built from in-range fields
return those fields. -/
theorem civilFromDays_daysFromCivil (y m d : Int) (hm0 : 1 ≤ m) (hm1 : m ≤ 12)
    (hd0 : 1 ≤ d) (hd1 : d ≤ daysInMonth y m) :
    civilFromDays (daysFromCivil y m d) = (y, m, d) := by
  interval_cases m <;>
    norm_num [daysInMonth, isLeapYear] at hd1 <;>
    simp only [daysFromCivil] <;> norm_num <;>
    rw [civilFromDays_shape _ _ (by omega) (by omega) (by omega)] <;>
    simp only [Prod.mk.injEq] <;> split_ifs <;>
    refine ⟨by omega, by omega, by omega⟩

theorem getFullYear_daysFromCivil (y m d : Int) (hm0 : 1 ≤ m) (hm1 : m ≤ 12)
    (hd0 : 1 ≤ d) (hd1 : d ≤ daysInMonth y m) :
    getFullYear (daysFromCivil y m d) = y := by
  simp [getFullYear, civilFromDays_daysFromCivil y m d hm0 hm1 hd0 hd1]

theorem getMonth_daysFromCivil (y m d : Int) (hm0 : 1 ≤ m) (hm1 : m ≤ 12)
    (hd0 : 1 ≤ d) (hd1 : d ≤ daysInMonth y m) :
    getMonth (daysFromCivil y m d) = m - 1 := by
  simp [getMonth, civilFromDays_daysFromCivil y m d hm0 hm1 hd0 hd1]

theorem getDate_daysFromCivil (y m d : Int) (hm0 : 1 ≤ m) (hm1 : m ≤ 12)
    (hd0 : 1 ≤ d) (hd1 : d ≤ daysInMonth y m) :
    getDate (daysFromCivil y m d) = d := by
  simp [getDate, civilFromDays_daysFromCivil y m d hm0 hm1 hd0 hd1]

example : daysFromCivil 1970 1 1 = 0 := by decide
example : civilFromDays 0 = (1970, 1, 1) := by decide
example : civilFromDays 20000 = (2024, 10, 4) := by decide
example : daysFromCivil 2025 9 11 - daysFromCivil 2025 6 21 = 82 := by decide
example : mkDate 2025 5 21 = daysFromCivil 2025 6 21 := by decide
example : getDate (mkDate 2025 9 0) = 30 := by decide

/-! ## Calendar distances between the solstice anchors

Linear facts used by the nearest-solstice analysis.  `daysFromCivil y 6 21`
is June 21 of year `y` and `daysFromCivil y 12 21` is December 21 of year `y`
(the two fixed solstice anchors of the source). -/

theorem winter_sub_summer (y : Int) :
    daysFromCivil y 12 21 - daysFromCivil y 6 21 = 183 := by
  simp only [daysFromCivil]
  norm_num

theorem summer_sub_prevWinter (y : Int) :
    daysFromCivil y 6 21 - daysFromCivil (y - 1) 12 21 =
      if isLeapYear y then 183 else 182 := by
  simp only [daysFromCivil, isLeapYear]
  split_ifs with h <;> norm_num <;> omega

theorem nextWinter_sub_winter (y : Int) :
    daysFromCivil (y + 1) 12 21 - daysFromCivil y 12 21 =
      if isLeapYear (y + 1) then 366 else 365 := by
  simp only [daysFromCivil, isLeapYear]
  split_ifs with h <;> norm_num <;> omega

theorem jan1_sub_prevWinter (y : Int) :
    daysFromCivil y 1 1 - daysFromCivil (y - 1) 12 21 = 11 := by
  simp only [daysFromCivil]
  norm_num

theorem dec31_sub_winter (y : Int) :
    daysFromCivil y 12 31 - daysFromCivil y 12 21 = 10 := by
  simp only [daysFromCivil]
  norm_num

/-- Every valid day of year `y` lies between January 1 and December 31 of `y`. -/
theorem daysFromCivil_year_bounds (y m d : Int) (hm0 : 1 ≤ m) (hm1 : m ≤ 12)
    (hd0 : 1 ≤ d) (hd1 : d ≤ daysInMonth y m) :
    daysFromCivil y 1 1 ≤ daysFromCivil y m d ∧
      daysFromCivil y m d ≤ daysFromCivil y 12 31 := by
  interval_cases m <;>
    norm_num [daysInMonth, isLeapYear] at hd1 <;>
    simp only [daysFromCivil] <;> norm_num <;> omega

/-! ## `DateCalculations` (source: the date-calculations class)

Direct embedding of the class methods.  `SUMMER_SOLSTICE = {month: 6, day: 21}`
and `WINTER_SOLSTICE = {month: 12, day: 21}` are inlined as the corresponding
`mkDate` month indices (6-1 and 12-1).  The `reduce` over the four-element
`distances` array is unrolled: the accumulator keeps the incumbent unless the
current candidate is strictly nearer. -/

/-- `DateCalculations.getNearestSolstice(date)`.  The `reduce` over the
four-element `distances` array (order: summer, winter, next winter, previous
winter; the accumulator is replaced only when the current candidate is
*strictly* nearer) is unrolled into nested conditionals on the accumulator's
distance at each step. -/
def getNearestSolstice (n : Int) : Int :=
  let year := getFullYear n
  let summerSolstice := mkDate year 5 21
  let winterSolstice := mkDate year 11 21
  let nextWinterSolstice := mkDate (year + 1) 11 21
  let prevWinterSolstice := mkDate (year - 1) 11 21
  let distanceToSummer := jsAbs (n - summerSolstice)
  let distanceToWinter := jsAbs (n - winterSolstice)
  let distanceToNextWinter := jsAbs (n - nextWinterSolstice)
  let distanceToPrevWinter := jsAbs (n - prevWinterSolstice)
  if distanceToWinter < distanceToSummer then
    if distanceToNextWinter < distanceToWinter then
      if distanceToPrevWinter < distanceToNextWinter then prevWinterSolstice
      else nextWinterSolstice
    else
      if distanceToPrevWinter < distanceToWinter then prevWinterSolstice
      else winterSolstice
  else
    if distanceToNextWinter < distanceToSummer then
      if distanceToPrevWinter < distanceToNextWinter then prevWinterSolstice
      else nextWinterSolstice
    else
      if distanceToPrevWinter < distanceToSummer then prevWinterSolstice
      else summerSolstice

/-- `DateCalculations.calculateMirrorDate(date)`: `daysFromSolstice` is the
exact day difference (both dates are local midnights), and the
`setDate(getDate() - daysFromSolstice)` mirrors across the solstice. -/
def calculateMirrorDate (n : Int) : Int :=
  let nearestSolstice := getNearestSolstice n
  let daysFromSolstice := n - nearestSolstice
  setDate nearestSolstice (getDate nearestSolstice - daysFromSolstice)

/-- `DateCalculations.getMonthDates(year, month)`: `new Date(year, month, 0)`
is day 0 of the *next* month, i.e. the last day of month `month`, and its
`getDate()` is the number of days in the month. -/
def getMonthDates (year month : Int) : List Int :=
  let daysInMonthJs := getDate (mkDate year month 0)
  (List.range daysInMonthJs.toNat).map (fun (day : Nat) => mkDate year (month - 1) ((day : Int) + 1))

/-- `DateCalculations.isToday(date)` relative to an explicit `today`
(the source reads `new Date()`); compares day, month and year fields. -/
def isToday (today n : Int) : Bool :=
  getDate n == getDate today && getMonth n == getMonth today &&
    getFullYear n == getFullYear today

/-- One entry of `DateCalculations.getMonthWithMirrors`' result. -/
structure MirrorPair where
  current : Int
  mirrored : Int
  isToday : Bool
deriving DecidableEq

/-- `DateCalculations.getMonthWithMirrors(year, month)` relative to an
explicit `today`. -/
def getMonthWithMirrors (today year month : Int) : List MirrorPair :=
  let daysInMonthJs := getDate (mkDate year month 0)
  (List.range daysInMonthJs.toNat).map (fun (day : Nat) =>
    let currentDate := mkDate year (month - 1) ((day : Int) + 1)
    { current := currentDate
      mirrored := calculateMirrorDate currentDate
      isToday := isToday today currentDate })

/-- `DateCalculations.getPreviousMonth(currentDate)` (`setMonth(m - 1)`). -/
def getPreviousMonth (n : Int) : Int := setMonth n (getMonth n - 1)

/-- `DateCalculations.getNextMonth(currentDate)` (`setMonth(m + 1)`). -/
def getNextMonth (n : Int) : Int := setMonth n (getMonth n + 1)

/-- The nearest-solstice selection exactly as the specification words it:
candidates in the order {June 21 of the date's year, December 21 of the
date's year, December 21 of year−1, December 21 of year+1}; the candidate
with minimal absolute day-distance wins, ties broken by the first-listed
candidate in that enumeration order. -/
def specNearestSolstice (n : Int) : Int :=
  let year := getFullYear n
  let c1 := mkDate year 5 21
  let c2 := mkDate year 11 21
  let c3 := mkDate (year - 1) 11 21
  let c4 := mkDate (year + 1) 11 21
  let d1 := jsAbs (n - c1)
  let d2 := jsAbs (n - c2)
  let d3 := jsAbs (n - c3)
  let d4 := jsAbs (n - c4)
  if d1 ≤ d2 ∧ d1 ≤ d3 ∧ d1 ≤ d4 then c1
  else if d2 ≤ d3 ∧ d2 ≤ d4 then c2
  else if d3 ≤ d4 then c3
  else c4

example : getNearestSolstice (daysFromCivil 2025 1 5) = daysFromCivil 2024 12 21 := by decide
example : getNearestSolstice (daysFromCivil 2025 9 11) = daysFromCivil 2025 6 21 := by decide
example : calculateMirrorDate (daysFromCivil 2025 9 11) = daysFromCivil 2025 3 31 := by decide
example : getNextMonth (mkDate 2025 0 31) = daysFromCivil 2025 3 3 := by decide

/-! ## Structure of the nearest-solstice selection -/

theorem mkDate_five (y x : Int) : mkDate y 5 x = daysFromCivil y 6 x := by
  norm_num [mkDate]

theorem mkDate_eleven (y x : Int) : mkDate y 11 x = daysFromCivil y 12 x := by
  norm_num [mkDate]

/-- The selected nearest solstice is always one of the four constructed
solstice anchors, each of which is a June 21 or a December 21. -/
theorem getNearestSolstice_form (n : Int) :
    (∃ yy, getNearestSolstice n = daysFromCivil yy 6 21) ∨
      (∃ yy, getNearestSolstice n = daysFromCivil yy 12 21) := by
  simp only [getNearestSolstice, mkDate_five, mkDate_eleven]
  split_ifs
  · exact Or.inr ⟨getFullYear n - 1, rfl⟩
  · exact Or.inr ⟨getFullYear n + 1, rfl⟩
  · exact Or.inr ⟨getFullYear n - 1, rfl⟩
  · exact Or.inr ⟨getFullYear n, rfl⟩
  · exact Or.inr ⟨getFullYear n - 1, rfl⟩
  · exact Or.inr ⟨getFullYear n + 1, rfl⟩
  · exact Or.inr ⟨getFullYear n - 1, rfl⟩
  · exact Or.inl ⟨getFullYear n, rfl⟩

theorem daysInMonth_21 (y m : Int) : 21 ≤ daysInMonth y m := by
  simp only [daysInMonth]
  split_ifs <;> omega

/-- `calculateMirrorDate` computes `solstice − (date − solstice)`:
the reflection of the date across its nearest solstice. -/
theorem calculateMirrorDate_eq (n : Int) :
    calculateMirrorDate n = 2 * getNearestSolstice n - n := by
  have key : ∀ yy mm : Int, mm = 6 ∨ mm = 12 →
      getNearestSolstice n = daysFromCivil yy mm 21 →
      calculateMirrorDate n = 2 * getNearestSolstice n - n := by
    intro yy mm hmm h
    have hm0 : (1 : Int) ≤ mm := by omega
    have hm1 : mm ≤ 12 := by omega
    have hd1 : (21 : Int) ≤ daysInMonth yy mm := daysInMonth_21 yy mm
    simp only [calculateMirrorDate, h, setDate,
      getDate_daysFromCivil yy mm 21 hm0 hm1 (by omega) hd1,
      getFullYear_daysFromCivil yy mm 21 hm0 hm1 (by omega) hd1,
      getMonth_daysFromCivil yy mm 21 hm0 hm1 (by omega) hd1]
    rcases hmm with hmm | hmm <;> subst hmm
    · rw [show (6 : Int) - 1 = 5 from rfl, mkDate_five,
        show 21 - (n - daysFromCivil yy 6 21) = 21 + (daysFromCivil yy 6 21 - n) from by ring,
        daysFromCivil_day_linear]
      omega
    · rw [show (12 : Int) - 1 = 11 from rfl, mkDate_eleven,
        show 21 - (n - daysFromCivil yy 12 21) = 21 + (daysFromCivil yy 12 21 - n) from by ring,
        daysFromCivil_day_linear]
      omega
  rcases getNearestSolstice_form n with ⟨yy, h⟩ | ⟨yy, h⟩
  · exact key yy 6 (Or.inl rfl) h
  · exact key yy 12 (Or.inr rfl) h

set_option maxHeartbeats 4000000 in
/-- On any valid calendar date, the source's nearest-solstice selection agrees
with the specification's enumeration-order tie-breaking minimum. -/
theorem getNearestSolstice_eq_spec (y m d : Int) (hm0 : 1 ≤ m) (hm1 : m ≤ 12)
    (hd0 : 1 ≤ d) (hd1 : d ≤ daysInMonth y m) :
    getNearestSolstice (daysFromCivil y m d) = specNearestSolstice (daysFromCivil y m d) := by
  have hy : getFullYear (daysFromCivil y m d) = y :=
    getFullYear_daysFromCivil y m d hm0 hm1 hd0 hd1
  have hb := daysFromCivil_year_bounds y m d hm0 hm1 hd0 hd1
  have g1 := winter_sub_summer y
  have g2 := summer_sub_prevWinter y
  have g3 := nextWinter_sub_winter y
  have g4 := jan1_sub_prevWinter y
  have g5 := dec31_sub_winter y
  have g2' : 182 ≤ daysFromCivil y 6 21 - daysFromCivil (y - 1) 12 21 ∧
      daysFromCivil y 6 21 - daysFromCivil (y - 1) 12 21 ≤ 183 := by
    split_ifs at g2 <;> omega
  have g3' : 365 ≤ daysFromCivil (y + 1) 12 21 - daysFromCivil y 12 21 ∧
      daysFromCivil (y + 1) 12 21 - daysFromCivil y 12 21 ≤ 366 := by
    split_ifs at g3 <;> omega
  clear g2 g3 hd1
  simp only [getNearestSolstice, specNearestSolstice, hy, mkDate_five, mkDate_eleven, jsAbs]
  set pw := daysFromCivil (y - 1) 12 21 with hpw
  set nw := daysFromCivil (y + 1) 12 21 with hnw
  set w := daysFromCivil y 12 21 with hw
  set s := daysFromCivil y 6 21 with hs
  set aa := daysFromCivil y 1 1 with haa
  set bb := daysFromCivil y 12 31 with hbb
  set n := daysFromCivil y m d with hn
  split_ifs <;> omega

set_option maxHeartbeats 4000000 in
/-- On any valid calendar date, the selected nearest solstice is within 183
days of the input date. -/
theorem getNearestSolstice_within (y m d : Int) (hm0 : 1 ≤ m) (hm1 : m ≤ 12)
    (hd0 : 1 ≤ d) (hd1 : d ≤ daysInMonth y m) :
    jsAbs (getNearestSolstice (daysFromCivil y m d) - daysFromCivil y m d) ≤ 183 := by
  have hy : getFullYear (daysFromCivil y m d) = y :=
    getFullYear_daysFromCivil y m d hm0 hm1 hd0 hd1
  have hb := daysFromCivil_year_bounds y m d hm0 hm1 hd0 hd1
  have g1 := winter_sub_summer y
  have g2 := summer_sub_prevWinter y
  have g3 := nextWinter_sub_winter y
  have g4 := jan1_sub_prevWinter y
  have g5 := dec31_sub_winter y
  have g2' : 182 ≤ daysFromCivil y 6 21 - daysFromCivil (y - 1) 12 21 ∧
      daysFromCivil y 6 21 - daysFromCivil (y - 1) 12 21 ≤ 183 := by
    split_ifs at g2 <;> omega
  have g3' : 365 ≤ daysFromCivil (y + 1) 12 21 - daysFromCivil y 12 21 ∧
      daysFromCivil (y + 1) 12 21 - daysFromCivil y 12 21 ≤ 366 := by
    split_ifs at g3 <;> omega
  clear g2 g3 hd1
  simp only [getNearestSolstice, hy, mkDate_five, mkDate_eleven, jsAbs]
  set pw := daysFromCivil (y - 1) 12 21 with hpw
  set nw := daysFromCivil (y + 1) 12 21 with hnw
  set w := daysFromCivil y 12 21 with hw
  set s := daysFromCivil y 6 21 with hs
  set aa := daysFromCivil y 1 1 with haa
  set bb := daysFromCivil y 12 31 with hbb
  set n := daysFromCivil y m d with hn
  split_ifs <;> omega

/-- June 21 is its own nearest solstice. -/
theorem getNearestSolstice_summer (y : Int) :
    getNearestSolstice (daysFromCivil y 6 21) = daysFromCivil y 6 21 := by
  have hy : getFullYear (daysFromCivil y 6 21) = y :=
    getFullYear_daysFromCivil y 6 21 (by omega) (by omega) (by omega)
      (by simp [daysInMonth])
  have g1 := winter_sub_summer y
  have g2 := summer_sub_prevWinter y
  have g3 := nextWinter_sub_winter y
  have g2' : 182 ≤ daysFromCivil y 6 21 - daysFromCivil (y - 1) 12 21 ∧
      daysFromCivil y 6 21 - daysFromCivil (y - 1) 12 21 ≤ 183 := by
    split_ifs at g2 <;> omega
  have g3' : 365 ≤ daysFromCivil (y + 1) 12 21 - daysFromCivil y 12 21 ∧
      daysFromCivil (y + 1) 12 21 - daysFromCivil y 12 21 ≤ 366 := by
    split_ifs at g3 <;> omega
  clear g2 g3
  simp only [getNearestSolstice, hy, mkDate_five, mkDate_eleven, jsAbs]
  set pw := daysFromCivil (y - 1) 12 21 with hpw
  set nw := daysFromCivil (y + 1) 12 21 with hnw
  set w := daysFromCivil y 12 21 with hw
  set s := daysFromCivil y 6 21 with hs
  split_ifs <;> omega

/-- December 21 is its own nearest solstice. -/
theorem getNearestSolstice_winter (y : Int) :
    getNearestSolstice (daysFromCivil y 12 21) = daysFromCivil y 12 21 := by
  have hy : getFullYear (daysFromCivil y 12 21) = y :=
    getFullYear_daysFromCivil y 12 21 (by omega) (by omega) (by omega)
      (by simp [daysInMonth])
  have g1 := winter_sub_summer y
  have g2 := summer_sub_prevWinter y
  have g3 := nextWinter_sub_winter y
  have g2' : 182 ≤ daysFromCivil y 6 21 - daysFromCivil (y - 1) 12 21 ∧
      daysFromCivil y 6 21 - daysFromCivil (y - 1) 12 21 ≤ 183 := by
    split_ifs at g2 <;> omega
  have g3' : 365 ≤ daysFromCivil (y + 1) 12 21 - daysFromCivil y 12 21 ∧
      daysFromCivil (y + 1) 12 21 - daysFromCivil y 12 21 ≤ 366 := by
    split_ifs at g3 <;> omega
  clear g2 g3
  simp only [getNearestSolstice, hy, mkDate_five, mkDate_eleven, jsAbs]
  set pw := daysFromCivil (y - 1) 12 21 with hpw
  set nw := daysFromCivil (y + 1) 12 21 with hnw
  set w := daysFromCivil y 12 21 with hw
  set s := daysFromCivil y 6 21 with hs
  split_ifs <;> omega

/-! ## `TwilightClient` (source: the twilight API client)

A fetched record; the date key used throughout is `formatDateForAPI(date)`
(`YYYY-MM-DD`), which on midnight-anchored dates is in bijection with the
day count, so keys are modelled by the day count itself.  The injected
per-date lookup collaborator is modelled as a function `Int → Except String
TwilightRecord`: an `Except.error` models a rejected promise. -/

structure TwilightRecord where
  dawn : String
  dusk : String
  sunrise : String
  sunset : String
  error : Option String
  fallback : Bool
deriving DecidableEq

/-- The per-date fallback produced by `getTwilightTimes`' `catch` block. -/
def apiErrorRecord (msg : String) : TwilightRecord :=
  { dawn := "API Error", dusk := "API Error", sunrise := "API Error",
    sunset := "API Error", error := some msg, fallback := true }

/-- The record produced for every position by `getBatchTwilightTimes`' `catch`
block (`error: 'Batch fetch failed'`, no `fallback` key). -/
def batchFallbackRecord : TwilightRecord :=
  { dawn := "N/A", dusk := "N/A", sunrise := "N/A", sunset := "N/A",
    error := some "Batch fetch failed", fallback := false }

/-- `TwilightClient.getTwilightTimes(date, lat, lng)`: the network fetch and
response processing are abstracted into their outcome (`fetchOutcome`); the
`try/catch` converts a failure into a fallback record with `error` set, so
the function itself never rejects. -/
def getTwilightTimes (fetchOutcome : Except String TwilightRecord) : TwilightRecord :=
  match fetchOutcome with
  | Except.ok twilightData => twilightData
  | Except.error msg => apiErrorRecord msg

/-- First-occurrence-ordered list of the distinct date keys of `dates`:
the iteration order of `uniqueDateMap` (a JS `Map` keeps insertion order,
and a key is inserted the first time it is seen). -/
def uniqueKeys (dates : List Int) : List Int :=
  dates.foldl (fun acc d => if d ∈ acc then acc else acc ++ [d]) []

/-- `Promise.all`: resolves to the list of results, or rejects with the
first rejection. -/
def collectAll {α : Type} : List (Except String α) → Except String (List α)
  | [] => Except.ok []
  | Except.error e :: _ => Except.error e
  | Except.ok v :: rest =>
    match collectAll rest with
    | Except.ok vs => Except.ok (v :: vs)
    | Except.error e => Except.error e

/-- `TwilightClient.getBatchTwilightTimes(dates, lat, lng)` with the per-date
lookup injected.  The source issues one `getTwilightTimes` call per unique
date key (in concurrency batches of 2 with a 200 ms pause, which affects
timing only, not values), then scatters each unique result back to every
input position sharing its key; if the overall batch operation throws, it
returns a full-length array of fallback records. -/
def getBatchTwilightTimes (lookup : Int → Except String TwilightRecord)
    (dates : List Int) : List TwilightRecord :=
  if dates.isEmpty then []
  else
    match collectAll ((uniqueKeys dates).map lookup) with
    | Except.ok results =>
      dates.map (fun d => results.getD ((uniqueKeys dates).indexOf d) batchFallbackRecord)
    | Except.error _ => dates.map (fun _ => batchFallbackRecord)

/-! ### Behaviour of the deduplication and the scatter -/

theorem uniqueKeys_foldl_mem (l : List Int) (acc : List Int) (x : Int) :
    x ∈ l.foldl (fun acc d => if d ∈ acc then acc else acc ++ [d]) acc ↔
      x ∈ acc ∨ x ∈ l := by
  induction l generalizing acc with
  | nil => simp
  | cons a l ih =>
    simp only [List.foldl_cons]
    by_cases h : a ∈ acc
    · rw [if_pos h, ih]
      constructor
      · rintro (hx | hx)
        · exact Or.inl hx
        · exact Or.inr (List.mem_cons_of_mem a hx)
      · rintro (hx | hx)
        · exact Or.inl hx
        · rcases List.mem_cons.mp hx with rfl | hx
          · exact Or.inl h
          · exact Or.inr hx
    · rw [if_neg h, ih]
      simp only [List.mem_append, List.mem_singleton, List.mem_cons]
      tauto

theorem uniqueKeys_foldl_nodup (l : List Int) (acc : List Int) (hacc : acc.Nodup) :
    (l.foldl (fun acc d => if d ∈ acc then acc else acc ++ [d]) acc).Nodup := by
  induction l generalizing acc with
  | nil => simpa
  | cons a l ih =>
    simp only [List.foldl_cons]
    by_cases h : a ∈ acc
    · rw [if_pos h]; exact ih acc hacc
    · rw [if_neg h]
      exact ih _ (by simp [List.nodup_append, hacc, h])

/-- Membership in the deduplicated key list is membership in the input. -/
theorem mem_uniqueKeys (dates : List Int) (x : Int) :
    x ∈ uniqueKeys dates ↔ x ∈ dates := by
  rw [uniqueKeys, uniqueKeys_foldl_mem]
  simp

/-- The deduplicated key list has no duplicates: exactly one lookup is issued
per unique date key. -/
theorem uniqueKeys_nodup (dates : List Int) : (uniqueKeys dates).Nodup :=
  uniqueKeys_foldl_nodup dates [] List.nodup_nil

theorem collectAll_map_ok {α β : Type} (g : α → β) (l : List α) :
    collectAll (l.map (fun d => Except.ok (g d))) = Except.ok (l.map g) := by
  induction l with
  | nil => rfl
  | cons a l ih => simp [collectAll, ih]

/-- Scatter correctness: when every per-date lookup resolves, the batch result
is the pointwise image of the input dates — each position receives exactly
the record of its own date key. -/
theorem getBatchTwilightTimes_ok (g : Int → TwilightRecord) (dates : List Int) :
    getBatchTwilightTimes (fun d => Except.ok (g d)) dates = dates.map g := by
  rw [getBatchTwilightTimes]
  by_cases hempty : dates.isEmpty
  · rw [if_pos hempty]
    cases dates with
    | nil => rfl
    | cons a l => simp at hempty
  · rw [if_neg hempty, collectAll_map_ok g (uniqueKeys dates)]
    refine List.map_congr_left ?_
    intro d hd
    have hmem : d ∈ uniqueKeys dates := (mem_uniqueKeys dates d).mpr hd
    have hlt : (uniqueKeys dates).indexOf d < (uniqueKeys dates).length :=
      List.indexOf_lt_length.mpr hmem
    rw [List.getD_eq_getElem _ _ (by simpa using hlt)]
    simp [List.getElem_map, List.getElem_indexOf]

/-- The batch call is total and always returns one record per input position,
whatever the injected lookup does — callers never receive an exception. -/
theorem getBatchTwilightTimes_length (lookup : Int → Except String TwilightRecord)
    (dates : List Int) :
    (getBatchTwilightTimes lookup dates).length = dates.length := by
  rw [getBatchTwilightTimes]
  by_cases hempty : dates.isEmpty
  · rw [if_pos hempty]
    cases dates with
    | nil => rfl
    | cons a l => simp at hempty
  · rw [if_neg hempty]
    cases collectAll ((uniqueKeys dates).map lookup) <;> simp

/-- With an always-rejecting injected lookup, `Promise.all` rejects, the
`catch` fires, and every position receives the batch fallback record. -/
theorem getBatchTwilightTimes_all_fail (msg : String) (dates : List Int)
    (hne : dates ≠ []) :
    getBatchTwilightTimes (fun _ => Except.error msg) dates =
      dates.map (fun _ => batchFallbackRecord) := by
  rw [getBatchTwilightTimes]
  have hempty : dates.isEmpty = false := by
    cases dates with
    | nil => exact absurd rfl hne
    | cons a l => rfl
  rw [hempty]
  have hkeys : uniqueKeys dates ≠ [] := by
    cases dates with
    | nil => exact absurd rfl hne
    | cons a l =>
      intro hcon
      have : a ∈ uniqueKeys (a :: l) := (mem_uniqueKeys _ a).mpr (List.mem_cons_self a l)
      rw [hcon] at this
      simp at this
  cases hu : uniqueKeys dates with
  | nil => exact absurd hu hkeys
  | cons k ks => simp [collectAll]

/-! ## Chunked progressive loading (source: the app's symmetry-view loader)

`loadSymmetryData` builds the month dataset, renders it once unenriched,
splits it into chunks of 5 (`for (i = 0; i < monthData.length; i += 5)`),
and after each chunk's twilight fetch completes renders again.  The batch
fetch is total (`getBatchTwilightTimes_length`), so the `catch` branch never
fires and the number of `render` invocations is `1 + number of chunks`. -/

/-- The chunk decomposition of the loader's `for` loop: successive slices of
`size` elements (the last chunk may be shorter).  `size = 0` would not
terminate in the source either; the loader always uses 5 (single-location
mode) or 10 (comparison mode). -/
def chunksOf {α : Type} (size : Nat) (l : List α) : List (List α) :=
  match l with
  | [] => []
  | x :: xs => (x :: xs).take size :: chunksOf size (xs.drop (size - 1))
termination_by l.length
decreasing_by
  simp only [List.length_cons, List.length_drop]
  omega

/-- Concatenating the chunks recovers the dataset (the loop covers every
item exactly once). -/
theorem chunksOf_join {α : Type} (size : Nat) (hsize : 1 ≤ size) (l : List α) :
    (chunksOf size l).flatten = l := by
  induction l using chunksOf.induct size with
  | case1 => simp [chunksOf]
  | case2 x xs ih =>
    rw [chunksOf, List.flatten_cons, ih]
    rcases size with _ | s
    · omega
    · simp only [List.take_succ_cons, Nat.succ_sub_one, List.cons_append]
      rw [List.take_append_drop]

/-- Number of chunks produced at chunk size 5. -/
theorem chunksOf_five_length {α : Type} (l : List α) :
    (chunksOf 5 l).length = (l.length + 4) / 5 := by
  induction l using chunksOf.induct 5 with
  | case1 => simp [chunksOf]
  | case2 x xs ih =>
    rw [chunksOf, List.length_cons, ih]
    simp only [List.length_cons, List.length_drop]
    omega

/-- When the dataset length is a multiple of 5, every chunk is full. -/
theorem chunksOf_five_sizes {α : Type} (l : List α) (hdvd : 5 ∣ l.length) :
    ∀ c ∈ chunksOf 5 l, c.length = 5 := by
  induction l using chunksOf.induct 5 with
  | case1 => intro c hc; simp [chunksOf] at hc
  | case2 x xs ih =>
    intro c hc
    rw [chunksOf] at hc
    simp only [List.length_cons] at hdvd
    rcases List.mem_cons.mp hc with rfl | hc
    · simp only [List.length_take, List.length_cons]
      omega
    · exact ih (by simp only [List.length_drop]; omega) c hc

theorem getMonthWithMirrors_length (today year month : Int) :
    (getMonthWithMirrors today year month).length =
      (getDate (mkDate year month 0)).toNat := by
  rw [getMonthWithMirrors]
  simp only [List.length_map, List.length_range]

/-- Number of `render` invocations of `loadSymmetryData` for one request:
one initial render of the unenriched dataset plus one render per chunk
(the per-chunk twilight fetch never throws, so the `catch` render never
fires). -/
def loadSymmetryRenderCount (today year month : Int) : Nat :=
  1 + (chunksOf 5 (getMonthWithMirrors today year month)).length

/-! ## The claims -/

/-- Claim C2: for every date, `calculateMirrorDate(date)` returns
`solstice − d` where `solstice = getNearestSolstice(date)` and `d` is the
signed whole-day offset `date − solstice`, crossing month and year boundaries
by day arithmetic; in particular `calculateMirrorDate(2025-09-11) =
2025-03-31`, 82 days on each side of the June 21 solstice. -/
theorem claim_C2_mirror_reflection :
    (∀ n : Int, calculateMirrorDate n =
      getNearestSolstice n - (n - getNearestSolstice n)) ∧
    calculateMirrorDate (daysFromCivil 2025 9 11) = daysFromCivil 2025 3 31 ∧
    getNearestSolstice (daysFromCivil 2025 9 11) = daysFromCivil 2025 6 21 ∧
    daysFromCivil 2025 9 11 - daysFromCivil 2025 6 21 = 82 ∧
    daysFromCivil 2025 6 21 - daysFromCivil 2025 3 31 = 82 := by
  refine ⟨fun n => ?_, by decide, by decide, by decide, by decide⟩
  have h := calculateMirrorDate_eq n
  omega

/-- Claim C3: mirroring is an involution with respect to the same nearest
solstice: for every date strictly between 0 and 183 days from its nearest
solstice such that the date and its mirror select the same nearest solstice,
mirroring twice returns the original date. -/
theorem claim_C3_involution (n : Int)
    (_hpos : 0 < jsAbs (n - getNearestSolstice n))
    (_hlt : jsAbs (n - getNearestSolstice n) < 183)
    (hsame : getNearestSolstice (calculateMirrorDate n) = getNearestSolstice n) :
    calculateMirrorDate (calculateMirrorDate n) = n := by
  have h1 := calculateMirrorDate_eq n
  have h2 := calculateMirrorDate_eq (calculateMirrorDate n)
  rw [hsame] at h2
  omega

/-- Witness for C3 at 2025-09-11 (82 days from the June 21 solstice). -/
theorem claim_C3_involution_witness :
    calculateMirrorDate (calculateMirrorDate (daysFromCivil 2025 9 11)) =
      daysFromCivil 2025 9 11 :=
  claim_C3_involution (daysFromCivil 2025 9 11) (by decide) (by decide) (by decide)

/-- Claim C9: every solstice anchor (June 21 or December 21 of any year) is a
fixed point of `calculateMirrorDate` — its day-offset from its nearest
solstice is 0, which is why a mirror pair's two members can coincide. -/
theorem claim_C9_solstice_fixed_point (y : Int) :
    calculateMirrorDate (mkDate y 5 21) = mkDate y 5 21 ∧
    calculateMirrorDate (mkDate y 11 21) = mkDate y 11 21 ∧
    mkDate y 5 21 - getNearestSolstice (mkDate y 5 21) = 0 ∧
    mkDate y 11 21 - getNearestSolstice (mkDate y 11 21) = 0 := by
  rw [mkDate_five, mkDate_eleven]
  have hs := getNearestSolstice_summer y
  have hw := getNearestSolstice_winter y
  have h1 := calculateMirrorDate_eq (daysFromCivil y 6 21)
  have h2 := calculateMirrorDate_eq (daysFromCivil y 12 21)
  rw [hs] at h1
  rw [hw] at h2
  refine ⟨by omega, by omega, by omega, by omega⟩

/-- Claim C7: for every valid calendar date, the date returned by
`getNearestSolstice` is within 183 days (absolute day-distance) of the
input. -/
theorem claim_C7_nearest_within_183 (y m d : Int) (hm0 : 1 ≤ m) (hm1 : m ≤ 12)
    (hd0 : 1 ≤ d) (hd1 : d ≤ daysInMonth y m) :
    jsAbs (getNearestSolstice (daysFromCivil y m d) - daysFromCivil y m d) ≤ 183 :=
  getNearestSolstice_within y m d hm0 hm1 hd0 hd1

/-- Witness for C7 at 2025-09-11. -/
theorem claim_C7_nearest_within_183_witness :
    jsAbs (getNearestSolstice (daysFromCivil 2025 9 11) - daysFromCivil 2025 9 11) ≤ 183 :=
  claim_C7_nearest_within_183 2025 9 11 (by decide) (by decide) (by decide) (by decide)

/-- Claim C4: for every valid calendar date, `getNearestSolstice` returns the
member of {June 21 of the date's year, December 21 of the date's year,
December 21 of year−1, December 21 of year+1} minimizing absolute
day-distance, ties broken by the first-listed candidate in that enumeration
order (`specNearestSolstice`); in particular
`getNearestSolstice(2025-01-05) = 2024-12-21`, across the year boundary
rather than 2025-06-21. -/
theorem claim_C4_nearest_minimizer :
    (∀ y m d : Int, 1 ≤ m → m ≤ 12 → 1 ≤ d → d ≤ daysInMonth y m →
      getNearestSolstice (daysFromCivil y m d) =
        specNearestSolstice (daysFromCivil y m d)) ∧
    getNearestSolstice (daysFromCivil 2025 1 5) = daysFromCivil 2024 12 21 ∧
    getNearestSolstice (daysFromCivil 2025 1 5) ≠ daysFromCivil 2025 6 21 := by
  exact ⟨fun y m d hm0 hm1 hd0 hd1 =>
    getNearestSolstice_eq_spec y m d hm0 hm1 hd0 hd1, by decide, by decide⟩

/-- Witness for C4 at 2025-01-05. -/
theorem claim_C4_nearest_minimizer_witness :
    getNearestSolstice (daysFromCivil 2025 1 5) =
      specNearestSolstice (daysFromCivil 2025 1 5) :=
  claim_C4_nearest_minimizer.1 2025 1 5 (by decide) (by decide) (by decide) (by decide)

/-- Claim C1: the batch fetch returns a sequence of the same length and order
as the input, every position holding an equal date key receives an identical
record, and exactly one underlying lookup is issued per unique date key
(`uniqueKeys` is duplicate-free and covers exactly the input's keys); for
input `[A, B, A, C, B]` with distinct A, B, C, exactly the 3 lookups
`[A, B, C]` occur and the output has length 5 with `output[0] = output[2]`
and `output[1] = output[4]`. -/
theorem claim_C1_batch_dedup (lookup : Int → TwilightRecord) (dates : List Int) :
    (getBatchTwilightTimes (fun d => Except.ok (lookup d)) dates).length = dates.length ∧
    (∀ i j : Nat, i < dates.length → j < dates.length →
      dates.getD i 0 = dates.getD j 0 →
      (getBatchTwilightTimes (fun d => Except.ok (lookup d)) dates).getD i batchFallbackRecord =
        (getBatchTwilightTimes (fun d => Except.ok (lookup d)) dates).getD j batchFallbackRecord) ∧
    (uniqueKeys dates).Nodup ∧
    (∀ k : Int, k ∈ uniqueKeys dates ↔ k ∈ dates) ∧
    (∀ A B C : Int, A ≠ B → A ≠ C → B ≠ C →
      uniqueKeys [A, B, A, C, B] = [A, B, C] ∧
      (getBatchTwilightTimes (fun d => Except.ok (lookup d)) [A, B, A, C, B]).length = 5 ∧
      (getBatchTwilightTimes (fun d => Except.ok (lookup d)) [A, B, A, C, B]).getD 0
          batchFallbackRecord =
        (getBatchTwilightTimes (fun d => Except.ok (lookup d)) [A, B, A, C, B]).getD 2
          batchFallbackRecord ∧
      (getBatchTwilightTimes (fun d => Except.ok (lookup d)) [A, B, A, C, B]).getD 1
          batchFallbackRecord =
        (getBatchTwilightTimes (fun d => Except.ok (lookup d)) [A, B, A, C, B]).getD 4
          batchFallbackRecord) := by
  refine ⟨?_, ?_, uniqueKeys_nodup dates, mem_uniqueKeys dates, ?_⟩
  · rw [getBatchTwilightTimes_ok]
    exact List.length_map dates lookup
  · intro i j hi hj hij
    rw [getBatchTwilightTimes_ok]
    rw [List.getD_eq_getElem _ _ (by simpa using hi),
      List.getD_eq_getElem _ _ (by simpa using hj)]
    simp only [List.getElem_map]
    rw [List.getD_eq_getElem _ _ hi, List.getD_eq_getElem _ _ hj] at hij
    rw [hij]
  · intro A B C hab hac hbc
    have hba : ¬(B = A) := fun h => hab h.symm
    have hca : ¬(C = A) := fun h => hac h.symm
    have hcb : ¬(C = B) := fun h => hbc h.symm
    have hkeys : uniqueKeys [A, B, A, C, B] = [A, B, C] := by
      simp [uniqueKeys, hba, hca, hcb]
    refine ⟨hkeys, ?_, ?_, ?_⟩ <;> rw [getBatchTwilightTimes_ok] <;> simp

/-- Claim C5: `getBatchTwilightTimes` never propagates an exception: it is a
total function whose result always has one record per input position; with
an injected lookup that always rejects, every element is the batch fallback
record whose time fields carry the `N/A` sentinel and whose `error` field is
populated; a per-date lookup failure is caught inside `getTwilightTimes` and
becomes a per-position record with `error` set. -/
theorem claim_C5_batch_never_throws (lookup : Int → Except String TwilightRecord)
    (dates : List Int) (msg : String) (fetch : Int → Except String TwilightRecord) :
    (getBatchTwilightTimes lookup dates).length = dates.length ∧
    (dates ≠ [] → getBatchTwilightTimes (fun _ => Except.error msg) dates =
      dates.map (fun _ => batchFallbackRecord)) ∧
    (batchFallbackRecord.dawn = "N/A" ∧ batchFallbackRecord.dusk = "N/A" ∧
      batchFallbackRecord.sunrise = "N/A" ∧ batchFallbackRecord.sunset = "N/A" ∧
      batchFallbackRecord.error = some "Batch fetch failed") ∧
    (∀ i : Nat, i < dates.length → ∀ emsg : String,
      fetch (dates.getD i 0) = Except.error emsg →
      (getBatchTwilightTimes (fun d => Except.ok (getTwilightTimes (fetch d)))
          dates).getD i batchFallbackRecord = apiErrorRecord emsg ∧
      (apiErrorRecord emsg).error = some emsg) := by
  refine ⟨getBatchTwilightTimes_length lookup dates,
    getBatchTwilightTimes_all_fail msg dates, ⟨rfl, rfl, rfl, rfl, rfl⟩, ?_⟩
  intro i hi emsg hfail
  refine ⟨?_, rfl⟩
  rw [getBatchTwilightTimes_ok]
  rw [List.getD_eq_getElem _ _ (by simpa using hi)]
  simp only [List.getElem_map]
  rw [List.getD_eq_getElem _ _ hi] at hfail
  rw [hfail]
  rfl

/-- Witness for C1 with a constant lookup on the concrete input
`[0, 1, 0, 2, 1]`. -/
theorem claim_C1_batch_dedup_witness :
    uniqueKeys [0, 1, 0, 2, 1] = [0, 1, 2] ∧
    (getBatchTwilightTimes (fun _ => Except.ok batchFallbackRecord)
      [0, 1, 0, 2, 1]).length = 5 :=
  ⟨((claim_C1_batch_dedup (fun _ => batchFallbackRecord) [0, 1, 0, 2, 1]).2.2.2.2
      0 1 2 (by decide) (by decide) (by decide)).1,
    ((claim_C1_batch_dedup (fun _ => batchFallbackRecord) [0, 1, 0, 2, 1]).2.2.2.2
      0 1 2 (by decide) (by decide) (by decide)).2.1⟩

/-- Witness for C5 with an always-rejecting lookup on `[0, 1, 1]`. -/
theorem claim_C5_batch_never_throws_witness :
    getBatchTwilightTimes (fun _ => Except.error "boom") [0, 1, 1] =
      [batchFallbackRecord, batchFallbackRecord, batchFallbackRecord] := by
  have h := (claim_C5_batch_never_throws (fun _ => Except.error "boom") [0, 1, 1]
    "boom" (fun _ => Except.error "boom")).2.1 (by decide)
  simpa using h

/-- Claim C6: in single-location mirror mode, a 30-day month dataset
(September 2025) is processed in fixed-size chunks of 5, and the rendering
collaborator is invoked exactly 7 times: once with the initial unenriched
dataset and once after each of the 6 chunks. -/
theorem claim_C6_chunked_renders (today : Int) :
    (getMonthWithMirrors today 2025 9).length = 30 ∧
    (chunksOf 5 (getMonthWithMirrors today 2025 9)).length = 6 ∧
    loadSymmetryRenderCount today 2025 9 = 7 ∧
    (chunksOf 5 (getMonthWithMirrors today 2025 9)).flatten =
      getMonthWithMirrors today 2025 9 ∧
    (∀ c ∈ chunksOf 5 (getMonthWithMirrors today 2025 9), c.length = 5) := by
  have hlen : (getMonthWithMirrors today 2025 9).length = 30 := by
    rw [getMonthWithMirrors_length, show getDate (mkDate 2025 9 0) = 30 from by decide]
    rfl
  have hchunks : (chunksOf 5 (getMonthWithMirrors today 2025 9)).length = 6 := by
    rw [chunksOf_five_length, hlen]
  refine ⟨hlen, hchunks, ?_, chunksOf_join 5 (by omega) _,
    chunksOf_five_sizes _ (by omega)⟩
  rw [loadSymmetryRenderCount, hchunks]

theorem take_mem_chunksOf {α : Type} (size : Nat) (l : List α) (hne : l ≠ []) :
    l.take size ∈ chunksOf size l := by
  cases l with
  | nil => exact absurd rfl hne
  | cons x xs =>
    rw [chunksOf]
    exact List.mem_cons_self _ _

/-- Witness for C6 at `today = 0`, discharging the chunk-membership
hypothesis on the first chunk. -/
theorem claim_C6_chunked_renders_witness :
    ((getMonthWithMirrors 0 2025 9).take 5).length = 5 :=
  (claim_C6_chunked_renders 0).2.2.2.2 ((getMonthWithMirrors 0 2025 9).take 5)
    (take_mem_chunksOf 5 (getMonthWithMirrors 0 2025 9) (by
      intro hcon
      have h30 := (claim_C6_chunked_renders 0).1
      rw [hcon] at h30
      simp at h30))

/-- Counterexample to claim C8: `getMonthDates(2025, 13)` does not fail fast —
it silently returns the rolled-over month: the 31 days of January 2026,
identical to `getMonthDates(2026, 1)`. -/
theorem claim_C8_counterexample :
    getMonthDates 2025 13 = getMonthDates 2026 1 ∧
    (getMonthDates 2025 13).length = 31 ∧
    getMonthDates 2025 13 ≠ [] ∧
    (getMonthDates 2025 13).getD 0 0 = daysFromCivil 2026 1 1 := by
  refine ⟨by decide, by decide, by decide, by decide⟩

/-- Amended claim C8: `getMonthDates` and `getMonthWithMirrors` perform no
input validation; a month outside 1–12 is silently normalized by the date
constructor's rollover, producing the corresponding month of an adjacent
year (e.g. month 13 of 2025 yields January 2026) instead of failing fast. -/
theorem claim_C8_no_fail_fast (today : Int) :
    getMonthDates 2025 13 = getMonthDates 2026 1 ∧
    (getMonthDates 2025 13).length = 31 ∧
    getMonthDates 2025 0 = getMonthDates 2024 12 ∧
    getMonthWithMirrors today 2025 13 = getMonthWithMirrors today 2026 1 := by
  have hdim : mkDate 2025 13 0 = mkDate 2026 1 0 := by norm_num [mkDate]
  have hmk : ∀ x : Int, mkDate 2025 12 x = mkDate 2026 0 x := by
    intro x
    norm_num [mkDate]
  refine ⟨by decide, by decide, by decide, ?_⟩
  rw [getMonthWithMirrors, getMonthWithMirrors, hdim]
  refine List.map_congr_left ?_
  intro day _
  rw [show (13 : Int) - 1 = 12 from rfl, show (1 : Int) - 1 = 0 from rfl, hmk]

/-- Claim C10: `getNextMonth`/`getPreviousMonth` are not guaranteed to land in
the adjacent calendar month: `getNextMonth(2025-01-31)` is 2025-03-03 (two
months later, via the nonexistent February 31), and
`getPreviousMonth(2025-03-31)` is 2025-03-03 (the same month, via the
nonexistent February 31). -/
theorem claim_C10_month_navigation_skips :
    civilFromDays (mkDate 2025 0 31) = (2025, 1, 31) ∧
    getNextMonth (mkDate 2025 0 31) = daysFromCivil 2025 3 3 ∧
    civilFromDays (getNextMonth (mkDate 2025 0 31)) = (2025, 3, 3) ∧
    civilFromDays (mkDate 2025 2 31) = (2025, 3, 31) ∧
    getPreviousMonth (mkDate 2025 2 31) = daysFromCivil 2025 3 3 ∧
    civilFromDays (getPreviousMonth (mkDate 2025 2 31)) = (2025, 3, 3) := by
  refine ⟨by decide, by decide, by decide, by decide, by decide, by decide⟩
